import Mathlib

/-!
Verification of the authentication / OTP lifecycle subsystem of the
neurula patient backend.

The development shallowly embeds the relevant source code:

* `app/utils/redis_client.py` — the ephemeral key-value store with per-key
  expiration (`Store` below, a function from keys to optional entries,
  together with an explicit clock `now`);
* `app/services/otp_service.py` — `OTP.generate_and_store` and `OTP.verify`;
* `app/core/security.py` — JWT creation/decoding (symbolic signature model)
  and `validate_password_strength`;
* `app/services/auth_service.py` — `AuthService.register_user`,
  `AuthService.verify_otp`, `AuthService.login`,
  `AuthService.refresh_access_token`.

Machine-level conventions: times are naturals (seconds); Redis per-key
expiry is modelled as an absolute expiration instant recorded in the entry,
with a key counting as absent once its expiration instant is reached.
Python truthiness of an optional string (`None` and `""` are falsy) is
`pyTruthy`; Python `int(...)` applied to a decimal string is `pyParseInt`
(totalised with `Option`).  External collaborators (bcrypt hashing, UUID
generation, the random number generator) are passed in as parameters.
-/

/-! ## Ephemeral key-value store (redis_client.py) -/

/-- A stored value together with its absolute expiration instant
(`none` = no expiry). -/
structure Entry where
  value : String
  expireAt : Option Nat
deriving DecidableEq

/-- The ephemeral store: a map from keys to entries. -/
abbrev Store := String → Option Entry

/-- The entry at a key, filtered by liveness at time `now`: an entry whose
expiration instant has been reached counts as absent. -/
def liveAt (now : Nat) : Option Entry → Option Entry
  | none => none
  | some e =>
    match e.expireAt with
    | none => some e
    | some t => if now < t then some e else none

/-- `redis.get`: the value at a key if the key is live. -/
def Store.get (s : Store) (now : Nat) (k : String) : Option String :=
  (liveAt now (s k)).map Entry.value

/-- `redis.set(key, value, ex=...)`: store a value, with optional relative
expiry converted to an absolute instant. -/
def Store.setex (s : Store) (now : Nat) (k v : String) (ex : Option Nat) : Store :=
  fun q => if q = k then some ⟨v, ex.map (fun d => now + d)⟩ else s q

/-- `redis.delete`. -/
def Store.del (s : Store) (k : String) : Store :=
  fun q => if q = k then none else s q

/-- `redis.exists`. -/
def Store.existsKey (s : Store) (now : Nat) (k : String) : Bool :=
  (liveAt now (s k)).isSome

/-- `redis.ttl`: remaining seconds, `-1` for no expiry, `-2` for absent. -/
def Store.ttl (s : Store) (now : Nat) (k : String) : Int :=
  match liveAt now (s k) with
  | none => -2
  | some e =>
    match e.expireAt with
    | none => -1
    | some t => (t : Int) - (now : Int)

/-- Python truthiness of an optional string: `None` and `""` are falsy. -/
def pyTruthy : Option String → Bool
  | none => false
  | some v => !(v == "")

/-- Decimal digit value of a character, if any. -/
def digitVal (c : Char) : Option Nat :=
  if '0' ≤ c ∧ c ≤ '9' then some (c.toNat - '0'.toNat) else none

/-- Left fold of decimal digits onto an accumulator. -/
def parseDigits : List Char → Option Nat → Option Nat
  | [], acc => acc
  | c :: cs, acc =>
    match acc, digitVal c with
    | some n, some d => parseDigits cs (some (n * 10 + d))
    | _, _ => none

/-- Python `int(...)` on a decimal string, totalised with `Option`. -/
def pyParseInt (v : String) : Option Nat :=
  if v.isEmpty then none else parseDigits v.toList (some 0)

/-- Python `int(x)` as used on values read from the store (only ever applied
to decimal numerals there). -/
def pyInt (o : Option String) : Nat :=
  (pyParseInt (o.getD "")).getD 0

/-- `redis.incr`: parse the live value as an integer, add one, store the
result back preserving the expiry; an absent (or expired) key is initialised
to `1` with no expiry. -/
def Store.incr (s : Store) (now : Nat) (k : String) : Store × Nat :=
  match liveAt now (s k) with
  | none => (s.setex now k "1" none, 1)
  | some e =>
    let n := pyInt (some e.value) + 1
    (fun q => if q = k then some ⟨toString n, e.expireAt⟩ else s q, n)

/-! ## OTP service (otp_service.py) -/

/-- Configuration consumed by `OTPService` (`app/config.py`). -/
structure OTPConfig where
  otp_length : Nat
  otp_expire_minutes : Nat
  max_attempts : Nat
  resend_cooldown : Nat
  rate_limit_per_hour : Nat
deriving DecidableEq

/-- The defaults of `app/config.py`: `OTP_LENGTH=6`, `OTP_EXPIRE_MINUTES=5`,
`OTP_MAX_ATTEMPTS=3`, `OTP_RESEND_COOLDOWN_SECONDS=30`,
`OTP_RATE_LIMIT_PER_HOUR=5`. -/
def defaultOTPConfig : OTPConfig :=
  { otp_length := 6, otp_expire_minutes := 5, max_attempts := 3,
    resend_cooldown := 30, rate_limit_per_hour := 5 }

/-- `OTPService._get_otp_key`. -/
def otpKey (id : String) : String := "otp:" ++ id

/-- `OTPService._get_attempts_key`. -/
def attemptsKey (id : String) : String := "otp_attempts:" ++ id

/-- `OTPService._get_resend_key`. -/
def resendKey (id : String) : String := "otp_resend:" ++ id

/-- `OTPService._get_rate_limit_key`. -/
def rateLimitKey (id : String) : String := "otp_rate_limit:" ++ id

/-- `OTPService._generate_otp`: join the decimal digits drawn from the
random source (`random.randint(0, 9)` for each position). -/
def genOtp (len : Nat) (rand : Nat → Fin 10) : String :=
  (((List.range len).map (fun i => toString (rand i).val)).foldr (· ++ ·) "")

/-- Result of `OTPService.generate_and_store`: either the code with its
expiry, or one of the two raised exceptions (`RateLimitError`, `OTPError`). -/
inductive GenResult where
  | ok (otp : String) (expires_in : Nat)
  | rateLimitError (msg : String)
  | otpError (msg : String)
deriving DecidableEq

namespace OTP

/-- `OTPService.generate_and_store`: rate-limit check, resend-cooldown
check, then create the OTP record, reset the attempts counter, set the
cooldown marker and bump the hourly rate counter. -/
def generate_and_store (cfg : OTPConfig) (rand : Nat → Fin 10) (s : Store)
    (now : Nat) (id : String) : GenResult × Store :=
  let rate_limit_count := s.get now (rateLimitKey id)
  if pyTruthy rate_limit_count = true ∧ cfg.rate_limit_per_hour ≤ pyInt rate_limit_count then
    (.rateLimitError "Too many OTP requests. Please try again later.", s)
  else if s.existsKey now (resendKey id) = true then
    (.otpError ("Please wait " ++ toString (s.ttl now (resendKey id)) ++
      " seconds before requesting a new OTP"), s)
  else
    let otp := genOtp cfg.otp_length rand
    let expire_seconds := cfg.otp_expire_minutes * 60
    let s1 := s.setex now (otpKey id) otp (some expire_seconds)
    let s2 := s1.setex now (attemptsKey id) "0" (some expire_seconds)
    let s3 := s2.setex now (resendKey id) "1" (some cfg.resend_cooldown)
    let s4 := if pyTruthy rate_limit_count = false then
        s3.setex now (rateLimitKey id) "1" (some 3600)
      else (s3.incr now (rateLimitKey id)).1
    (.ok otp expire_seconds, s4)

/-- `OTPService.verify`: returns the `(is_valid, error_message)` pair of the
source together with the updated store. -/
def verify (cfg : OTPConfig) (s : Store) (now : Nat) (id otp : String) :
    (Bool × Option String) × Store :=
  let stored_otp := s.get now (otpKey id)
  if pyTruthy stored_otp = false then
    ((false, some "OTP expired or not found"), s)
  else
    let attempts := s.get now (attemptsKey id)
    if pyTruthy attempts = true ∧ cfg.max_attempts ≤ pyInt attempts then
      ((false, some "Maximum verification attempts exceeded. Please request a new OTP"),
        (s.del (otpKey id)).del (attemptsKey id))
    else if otp ≠ stored_otp.getD "" then
      let s1 := (s.incr now (attemptsKey id)).1
      let new_count := if pyTruthy attempts = true then pyInt attempts + 1 else 1
      let remaining : Int := (cfg.max_attempts : Int) - (new_count : Int)
      if remaining ≤ 0 then
        ((false, some "Invalid OTP. Maximum attempts exceeded"),
          (s1.del (otpKey id)).del (attemptsKey id))
      else
        ((false, some ("Invalid OTP. " ++ toString remaining ++ " attempts remaining")), s1)
    else
      ((true, none), (s.del (otpKey id)).del (attemptsKey id))

end OTP

/-! ## Token issuer (core/security.py) -/

/-- JWT-relevant settings (`app/config.py`). -/
structure AppSettings where
  jwt_secret : String
  jwt_algorithm : String
  access_token_expire_minutes : Nat
  refresh_token_expire_days : Nat
deriving DecidableEq

/-- The claims the service puts into a JWT: `sub`, for access tokens also
`email` and `role`, the issue and expiry instants, and the `type`
discriminator. -/
structure JWTPayload where
  sub : Option String
  email : Option String
  role : Option String
  iat : Nat
  exp : Nat
  type : String
deriving DecidableEq

/-- A signed token, in the symbolic-crypto model: the signature is
represented by recording the signing secret and algorithm; decoding with a
key succeeds exactly when both match. -/
structure Token where
  payload : JWTPayload
  secret : String
  alg : String
deriving DecidableEq

/-- `jose.jwt.decode`: signature check plus expiry check (an expired token
raises, which the callers turn into `None`). -/
def jwtDecode (st : AppSettings) (t : Token) (now : Nat) : Option JWTPayload :=
  if t.secret = st.jwt_secret ∧ t.alg = st.jwt_algorithm ∧ now ≤ t.payload.exp then
    some t.payload
  else none

/-- `create_access_token` (with the default expiry). -/
def create_access_token (st : AppSettings) (sub email role : String) (now : Nat) : Token :=
  let payload : JWTPayload :=
    { sub := some sub, email := some email, role := some role, iat := now,
      exp := now + st.access_token_expire_minutes * 60, type := "access" }
  { payload := payload, secret := st.jwt_secret, alg := st.jwt_algorithm }

/-- `create_refresh_token`. -/
def create_refresh_token (st : AppSettings) (sub : String) (now : Nat) : Token :=
  let payload : JWTPayload :=
    { sub := some sub, email := none, role := none, iat := now,
      exp := now + st.refresh_token_expire_days * 24 * 60 * 60, type := "refresh" }
  { payload := payload, secret := st.jwt_secret, alg := st.jwt_algorithm }

/-- `decode_access_token`: decode, then reject any payload whose `type`
claim is not `"access"`. -/
def decode_access_token (st : AppSettings) (t : Token) (now : Nat) : Option JWTPayload :=
  match jwtDecode st t now with
  | none => none
  | some payload => if payload.type ≠ "access" then none else some payload

/-- `decode_refresh_token`: decode, then reject any payload whose `type`
claim is not `"refresh"`. -/
def decode_refresh_token (st : AppSettings) (t : Token) (now : Nat) : Option JWTPayload :=
  match jwtDecode st t now with
  | none => none
  | some payload => if payload.type ≠ "refresh" then none else some payload

/-- `validate_password_strength`: minimum length, then one uppercase, one
lowercase, one digit and one special character from the fixed set. -/
def validate_password_strength (minLen : Nat) (password : String) : Bool × Option String :=
  if password.length < minLen then
    (false, some ("Password must be at least " ++ toString minLen ++ " characters long"))
  else if !(password.toList.any (fun c => decide ('A' ≤ c ∧ c ≤ 'Z'))) then
    (false, some "Password must contain at least one uppercase letter")
  else if !(password.toList.any (fun c => decide ('a' ≤ c ∧ c ≤ 'z'))) then
    (false, some "Password must contain at least one lowercase letter")
  else if !(password.toList.any (fun c => decide ('0' ≤ c ∧ c ≤ '9'))) then
    (false, some "Password must contain at least one digit")
  else if !(password.toList.any (fun c =>
      ['!', '@', '#', '$', '%', '^', '&', '*', '(', ')', ',', '.', '?',
        '\"', ':', '\x7b', '\x7d', '|', '<', '>'].contains c)) then
    (false, some "Password must contain at least one special character")
  else
    (true, none)

/-! ## Credential store and auth orchestrator (auth_service.py) -/

/-- The `User` row (`app/models/user.py`); the fields the verified flows
touch.  `id` is the stringified primary key, `role` the enum value string,
`deleted_at` the soft-delete marker. -/
structure User where
  id : String
  email : String
  phone : String
  password_hash : String
  full_name : String
  role : String
  is_active : Bool
  is_verified : Bool
  email_verified : Bool
  phone_verified : Bool
  last_login : Option Nat
  deleted_at : Option Nat
deriving DecidableEq

/-- The `Patient` row (`app/models/patient.py`); only the fields consulted
by the registration duplicate checks. -/
structure Patient where
  user_id : String
  emirates_id : Option String
  deleted_at : Option Nat
deriving DecidableEq

/-- The relational store consumed through SQLAlchemy. -/
structure DB where
  users : List User
  patients : List Patient
deriving DecidableEq

/-- `RegisterRequest` (`app/schemas/auth.py`); the fields the service
reads, with the unverified profile extras omitted. -/
structure RegisterRequest where
  full_name : String
  email : String
  phone : String
  password : String
  emirates_id : Option String
deriving DecidableEq

/-- `LoginRequest`. -/
structure LoginRequest where
  username : String
  password : String
  remember_me : Bool
deriving DecidableEq

/-- `TokenResponse` (`app/schemas/auth.py`). -/
structure TokenResponse where
  access_token : Token
  refresh_token : Token
  token_type : String
  expires_in : Nat
deriving DecidableEq

/-- The typed exceptions of `app/core/exceptions.py` raised by the auth
flows. -/
inductive AuthEx where
  | authenticationError (msg : String)
  | validationError (msg : String)
  | notFoundError (msg : String)
  | duplicateError (msg : String)
  | rateLimitError (msg : String)
  | otpError (msg : String)
deriving DecidableEq

/-- The user lookup `select(User).where(or_(email == x, phone == x),
deleted_at == None)` followed by `scalar_one_or_none()`. -/
def findByIdentifier (db : DB) (identifier : String) : Option User :=
  db.users.find? (fun u => (u.email == identifier || u.phone == identifier) &&
    u.deleted_at == none)

namespace AuthService

/-- `AuthService.register_user`: password strength, duplicate checks on
email / phone / Emirates ID among non-deleted rows, atomic creation of the
user and patient rows, then OTP generation for the email (whose exceptions
propagate after the commit).  `hashPw` models bcrypt, `newId` the generated
primary key. -/
def register_user (cfg : OTPConfig) (minLen : Nat) (hashPw : String → String)
    (newId : String) (rand : Nat → Fin 10) (db : DB) (s : Store) (now : Nat)
    (data : RegisterRequest) : Except AuthEx (User × Patient × String) × DB × Store :=
  let v := validate_password_strength minLen data.password
  if v.1 = false then
    (.error (.validationError (v.2.getD "")), db, s)
  else if (db.users.find? (fun u => u.email == data.email && u.deleted_at == none)).isSome then
    (.error (.duplicateError "Email already registered"), db, s)
  else if (db.users.find? (fun u => u.phone == data.phone && u.deleted_at == none)).isSome then
    (.error (.duplicateError "Phone number already registered"), db, s)
  else if pyTruthy data.emirates_id = true ∧
      (db.patients.find? (fun p => p.emirates_id == data.emirates_id &&
        p.deleted_at == none)).isSome then
    (.error (.duplicateError "Emirates ID already registered"), db, s)
  else
    let user : User :=
      { id := newId, email := data.email, phone := data.phone,
        password_hash := hashPw data.password, full_name := data.full_name,
        role := "patient", is_active := true, is_verified := false,
        email_verified := false, phone_verified := false,
        last_login := none, deleted_at := none }
    let patient : Patient :=
      { user_id := newId, emirates_id := data.emirates_id, deleted_at := none }
    let db2 : DB := { users := db.users ++ [user], patients := db.patients ++ [patient] }
    match OTP.generate_and_store cfg rand s now data.email with
    | (.ok otp _, s2) => (.ok (user, patient, otp), db2, s2)
    | (.rateLimitError m, s2) => (.error (.rateLimitError m), db2, s2)
    | (.otpError m, s2) => (.error (.otpError m), db2, s2)

/-- `AuthService.verify_otp`: delegate to `OTPService.verify` (whose store
mutations happen first), raise `ValidationError` on an invalid code, then
load the user by identifier, raise `NotFoundError` if absent, else set the
verification flags (`email_verified` when the identifier contains `@`,
otherwise `phone_verified`) and commit. -/
def verify_otp (cfg : OTPConfig) (db : DB) (s : Store) (now : Nat)
    (identifier otp : String) : Except AuthEx (Bool × User) × DB × Store :=
  let r := OTP.verify cfg s now identifier otp
  if r.1.1 = false then
    (.error (.validationError (r.1.2.getD "")), db, r.2)
  else
    match findByIdentifier db identifier with
    | none => (.error (.notFoundError "User not found"), db, r.2)
    | some user =>
      let user2 : User :=
        { user with
          is_verified := true
          email_verified := if identifier.contains '@' then true else user.email_verified
          phone_verified := if identifier.contains '@' then user.phone_verified else true }
      (.ok (true, user2),
        { db with users := db.users.map (fun u => if u.id == user.id then user2 else u) }, r.2)

/-- `AuthService.login`: lookup by email-or-phone among non-deleted rows,
generic `AuthenticationError "Invalid credentials"` for both a missing user
and a failed password check, then the active and verified checks, then
token issuance and the `last_login` update.  `verifyPw` models
`bcrypt.verify`; `remember_me` takes the same refresh-token branch either
way, as in the source. -/
def login (st : AppSettings) (verifyPw : String → String → Bool) (db : DB)
    (now : Nat) (data : LoginRequest) : Except AuthEx (User × TokenResponse) × DB :=
  match findByIdentifier db data.username with
  | none => (.error (.authenticationError "Invalid credentials"), db)
  | some user =>
    if verifyPw data.password user.password_hash = false then
      (.error (.authenticationError "Invalid credentials"), db)
    else if user.is_active = false then
      (.error (.authenticationError "Account is inactive"), db)
    else if user.is_verified = false then
      (.error (.authenticationError "Account not verified. Please verify your email/phone"), db)
    else
      let access_token := create_access_token st user.id user.email user.role now
      let refresh_token :=
        if data.remember_me then create_refresh_token st user.id now
        else create_refresh_token st user.id now
      let user2 : User := { user with last_login := some now }
      let tokens : TokenResponse :=
        { access_token := access_token, refresh_token := refresh_token,
          token_type := "bearer", expires_in := st.access_token_expire_minutes * 60 }
      (.ok (user2, tokens),
        { db with users := db.users.map (fun u => if u.id == user.id then user2 else u) })

/-- `AuthService.refresh_access_token`: decode as a refresh token, reject a
falsy `sub` claim, load the user by id among non-deleted rows, reject an
absent or inactive user, then issue a fresh access+refresh pair. -/
def refresh_access_token (st : AppSettings) (db : DB) (now : Nat)
    (refresh_token : Token) : Except AuthEx TokenResponse :=
  match decode_refresh_token st refresh_token now with
  | none => .error (.authenticationError "Invalid or expired refresh token")
  | some payload =>
    if pyTruthy payload.sub = false then
      .error (.authenticationError "Invalid token payload")
    else
      match db.users.find? (fun u => u.id == payload.sub.getD "" && u.deleted_at == none) with
      | none => .error (.authenticationError "User not found or inactive")
      | some user =>
        if user.is_active = false then
          .error (.authenticationError "User not found or inactive")
        else
          .ok { access_token := create_access_token st user.id user.email user.role now,
                refresh_token := create_refresh_token st user.id now,
                token_type := "bearer",
                expires_in := st.access_token_expire_minutes * 60 }

end AuthService

/-! ## Auxiliary predicates and traces -/

/-- The state of the attempts counter seen by `OTPService.verify`: either a
live numeric value parsing to `a`, or absent (treated as `0`). -/
def attemptsState (s : Store) (now : Nat) (id : String) (a : Nat) : Prop :=
  (∃ v tex, liveAt now (s (attemptsKey id)) = some ⟨v, tex⟩ ∧ pyParseInt v = some a) ∨
  (liveAt now (s (attemptsKey id)) = none ∧ a = 0)

/-- Whether a `generate_and_store` outcome is a success. -/
def isOk : GenResult → Bool
  | .ok _ _ => true
  | _ => false

/-- Number of successful outcomes in a trace. -/
def countOk (l : List GenResult) : Nat := (l.filter isOk).length

/-- A sequence of `generate_and_store` calls for one identifier at the
given instants, threading the store. -/
def runGen (cfg : OTPConfig) (rand : Nat → Fin 10) (id : String) :
    Store → List Nat → List GenResult × Store
  | s, [] => ([], s)
  | s, t :: ts =>
    let r := OTP.generate_and_store cfg rand s t id
    let rest := runGen cfg rand id r.2 ts
    (r.1 :: rest.1, rest.2)

/-- Invariant tying the hourly rate counter to the number of successful
generations so far: absent while no success, otherwise holding the decimal
count with an expiration instant no earlier than `tend`. -/
def rateInv (id : String) (tend k : Nat) (s : Store) : Prop :=
  (k = 0 ∧ s (rateLimitKey id) = none) ∨
  (1 ≤ k ∧ ∃ texp, s (rateLimitKey id) = some ⟨toString k, some texp⟩ ∧ tend ≤ texp)

/-! ## Concrete objects used by the witnesses -/

/-- The empty store. -/
def emptyStore : Store := fun _ => none

/-- A degenerate random source: every digit is `0`. -/
def randZero : Nat → Fin 10 := fun _ => 0

/-- A store holding a live OTP record `123456` and attempts counter `0` for
identifier `a@x.com`, as left by a successful generation at time `0`. -/
def exStore : Store :=
  ((emptyStore.setex 0 (otpKey "a@x.com") "123456" (some 300)).setex 0
    (attemptsKey "a@x.com") "0" (some 300)).setex 0 (resendKey "a@x.com") "1" (some 30)

/-- Example JWT settings. -/
def exSettings : AppSettings :=
  { jwt_secret := "development-secret-key-0123456789", jwt_algorithm := "HS256",
    access_token_expire_minutes := 15, refresh_token_expire_days := 7 }

/-- An example verified, active user. -/
def exUser : User :=
  { id := "u1", email := "a@x.com", phone := "+971501111111",
    password_hash := "HASH:Abc12345!", full_name := "A", role := "patient",
    is_active := true, is_verified := true, email_verified := true,
    phone_verified := false, last_login := none, deleted_at := none }

/-- An example unverified (but active) user. -/
def exUserUnverified : User :=
  { exUser with
    id := "u2"
    email := "b@x.com"
    phone := "+971502222222"
    is_verified := false
    email_verified := false }

/-- An example inactive user. -/
def exUserInactive : User :=
  { exUser with
    id := "u3"
    email := "c@x.com"
    phone := "+971503333333"
    is_active := false }

/-- An example patient row carrying an Emirates ID. -/
def exPatient : Patient :=
  { user_id := "u1", emirates_id := some "784-1234-1234567-1", deleted_at := none }

/-- An example database. -/
def exDB : DB :=
  { users := [exUser, exUserUnverified, exUserInactive], patients := [exPatient] }

/-- A password check that accepts exactly the hash produced by `exHash`. -/
def exVerifyPw (plain hash : String) : Bool := hash == "HASH:" ++ plain

/-- An example bcrypt stand-in. -/
def exHash (plain : String) : String := "HASH:" ++ plain

/-- A store whose hourly rate counter for `a@x.com` already reads `5`. -/
def exRateStore : Store :=
  emptyStore.setex 0 (rateLimitKey "a@x.com") "5" (some 3600)

/-! ## Helper lemmas -/

theorem ne_of_prefix_len {p q : String} (id : String) (h : p.length ≠ q.length) :
    p ++ id ≠ q ++ id := by
  intro he
  have h2 := congrArg String.length he
  rw [String.length_append, String.length_append] at h2
  omega

theorem otpKey_ne_attemptsKey (id : String) : otpKey id ≠ attemptsKey id :=
  ne_of_prefix_len id (by decide)

theorem otpKey_ne_resendKey (id : String) : otpKey id ≠ resendKey id :=
  ne_of_prefix_len id (by decide)

theorem otpKey_ne_rateLimitKey (id : String) : otpKey id ≠ rateLimitKey id :=
  ne_of_prefix_len id (by decide)

theorem attemptsKey_ne_resendKey (id : String) : attemptsKey id ≠ resendKey id :=
  ne_of_prefix_len id (by decide)

theorem attemptsKey_ne_rateLimitKey (id : String) : attemptsKey id ≠ rateLimitKey id :=
  ne_of_prefix_len id (by decide)

theorem resendKey_ne_rateLimitKey (id : String) : resendKey id ≠ rateLimitKey id :=
  ne_of_prefix_len id (by decide)

theorem Store.setex_apply_self (s : Store) (now : Nat) (k v : String) (ex : Option Nat) :
    (s.setex now k v ex) k = some ⟨v, ex.map (fun d => now + d)⟩ := by
  simp [Store.setex]

theorem Store.setex_apply_ne (s : Store) (now : Nat) (k v : String) (ex : Option Nat)
    {q : String} (h : q ≠ k) : (s.setex now k v ex) q = s q := by
  simp [Store.setex, h]

theorem Store.del_apply_self (s : Store) (k : String) : (s.del k) k = none := by
  simp [Store.del]

theorem Store.del_apply_ne (s : Store) (k : String) {q : String} (h : q ≠ k) :
    (s.del k) q = s q := by
  simp [Store.del, h]

theorem Store.get_of_liveAt {s : Store} {now : Nat} {k v : String} {tex : Option Nat}
    (h : liveAt now (s k) = some ⟨v, tex⟩) : s.get now k = some v := by
  simp [Store.get, h]

theorem Store.get_of_liveAt_none {s : Store} {now : Nat} {k : String}
    (h : liveAt now (s k) = none) : s.get now k = none := by
  simp [Store.get, h]

theorem liveAt_no_expiry (now : Nat) (v : String) :
    liveAt now (some ⟨v, none⟩) = some ⟨v, none⟩ := rfl

theorem liveAt_raw {now : Nat} {oe : Option Entry} {e : Entry}
    (h : liveAt now oe = some e) : oe = some e := by
  cases oe with
  | none => simp [liveAt] at h
  | some e2 =>
    cases he : e2.expireAt with
    | none => simpa [liveAt, he] using h
    | some t2 =>
      simp [liveAt, he] at h
      rw [h.2]

theorem liveAt_lt {now : Nat} {oe : Option Entry} {v : String} {t : Nat}
    (h : liveAt now oe = some ⟨v, some t⟩) : now < t := by
  have hraw : oe = some (⟨v, some t⟩ : Entry) := liveAt_raw h
  rw [hraw] at h
  unfold liveAt at h
  by_contra hc
  simp [hc] at h

theorem liveAt_same_expiry {now : Nat} {oe : Option Entry} {v : String} {tex : Option Nat}
    (h : liveAt now oe = some ⟨v, tex⟩) (w : String) :
    liveAt now (some ⟨w, tex⟩) = some ⟨w, tex⟩ := by
  cases tex with
  | none => rfl
  | some t => simp [liveAt, liveAt_lt h]

theorem pyParseInt_empty : pyParseInt "" = none := by decide

theorem ne_empty_of_parse {v : String} {a : Nat} (h : pyParseInt v = some a) : v ≠ "" := by
  intro he
  rw [he, pyParseInt_empty] at h
  cases h

theorem pyInt_of_parse {v : String} {a : Nat} (h : pyParseInt v = some a) :
    pyInt (some v) = a := by
  simp [pyInt, h]

theorem pyTruthy_of_parse {v : String} {a : Nat} (h : pyParseInt v = some a) :
    pyTruthy (some v) = true := by
  simp [pyTruthy, ne_empty_of_parse h]

theorem pyTruthy_none : pyTruthy none = false := rfl

theorem parse_toString_le5 {k : Nat} (h : k ≤ 5) : pyParseInt (toString k) = some k := by
  interval_cases k <;> decide

theorem digit_facts : ∀ d : Fin 10,
    (toString d.val).length = 1 ∧ ∀ c ∈ (toString d.val).toList, '0' ≤ c ∧ c ≤ '9' := by
  decide

theorem toList_append (a b : String) : (a ++ b).toList = a.toList ++ b.toList := by
  simp [String.toList, String.data_append]

theorem genOtp_aux (l : List (Fin 10)) :
    ((l.map (fun d => toString d.val)).foldr (· ++ ·) "").length = l.length ∧
    ∀ c ∈ ((l.map (fun d => toString d.val)).foldr (· ++ ·) "").toList,
      '0' ≤ c ∧ c ≤ '9' := by
  induction l with
  | nil => exact ⟨rfl, by intro c hc; cases hc⟩
  | cons d l ih =>
    constructor
    · simp only [List.map_cons, List.foldr_cons, String.length_append, ih.1,
        (digit_facts d).1, List.length_cons]
      omega
    · intro c hc
      rw [List.map_cons, List.foldr_cons, toList_append, List.mem_append] at hc
      cases hc with
      | inl h => exact (digit_facts d).2 c h
      | inr h => exact ih.2 c h

theorem genOtp_length (len : Nat) (rand : Nat → Fin 10) : (genOtp len rand).length = len := by
  unfold genOtp
  rw [show (List.range len).map (fun i => toString (rand i).val) =
      ((List.range len).map rand).map (fun d => toString d.val) by rw [List.map_map]; rfl]
  rw [(genOtp_aux ((List.range len).map rand)).1]
  simp

theorem genOtp_digits (len : Nat) (rand : Nat → Fin 10) :
    ∀ c ∈ (genOtp len rand).toList, '0' ≤ c ∧ c ≤ '9' := by
  unfold genOtp
  rw [show (List.range len).map (fun i => toString (rand i).val) =
      ((List.range len).map rand).map (fun d => toString d.val) by rw [List.map_map]; rfl]
  exact (genOtp_aux ((List.range len).map rand)).2

theorem genOtp_ne_empty {len : Nat} (rand : Nat → Fin 10) (h : 0 < len) :
    genOtp len rand ≠ "" := by
  intro he
  have h2 := genOtp_length len rand
  rw [he] at h2
  simp [String.length] at h2
  omega

theorem Store.incr_apply_ne (s : Store) (now : Nat) (k : String) {q : String} (h : q ≠ k) :
    (s.incr now k).1 q = s q := by
  unfold Store.incr
  split <;> simp [Store.setex, h]

theorem Store.incr_apply_self {s : Store} {now : Nat} {k : String} {v : String}
    {tex : Option Nat} (h : liveAt now (s k) = some ⟨v, tex⟩) :
    (s.incr now k).1 k = some ⟨toString (pyInt (some v) + 1), tex⟩ := by
  unfold Store.incr
  rw [h]
  simp

/-- Pointwise description of the store after a successful
`generate_and_store` (both checks pass): result value, the three records it
writes, and the rate-counter update in its two branches. -/
theorem generate_success (cfg : OTPConfig) (rand : Nat → Fin 10) (s : Store) (now : Nat)
    (id : String)
    (hrate : ¬(pyTruthy (Store.get s now (rateLimitKey id)) = true ∧
      cfg.rate_limit_per_hour ≤ pyInt (Store.get s now (rateLimitKey id))))
    (hcool : Store.existsKey s now (resendKey id) = false) :
    (OTP.generate_and_store cfg rand s now id).1 =
      .ok (genOtp cfg.otp_length rand) (cfg.otp_expire_minutes * 60) ∧
    (OTP.generate_and_store cfg rand s now id).2 (otpKey id) =
      some ⟨genOtp cfg.otp_length rand, some (now + cfg.otp_expire_minutes * 60)⟩ ∧
    (OTP.generate_and_store cfg rand s now id).2 (attemptsKey id) =
      some ⟨"0", some (now + cfg.otp_expire_minutes * 60)⟩ ∧
    (OTP.generate_and_store cfg rand s now id).2 (resendKey id) =
      some ⟨"1", some (now + cfg.resend_cooldown)⟩ ∧
    (pyTruthy (Store.get s now (rateLimitKey id)) = false →
      (OTP.generate_and_store cfg rand s now id).2 (rateLimitKey id) =
        some ⟨"1", some (now + 3600)⟩) ∧
    (∀ v tex, liveAt now (s (rateLimitKey id)) = some ⟨v, tex⟩ → v ≠ "" →
      (OTP.generate_and_store cfg rand s now id).2 (rateLimitKey id) =
        some ⟨toString (pyInt (some v) + 1), tex⟩) ∧
    (∀ q, q ≠ otpKey id → q ≠ attemptsKey id → q ≠ resendKey id → q ≠ rateLimitKey id →
      (OTP.generate_and_store cfg rand s now id).2 q = s q) := by
  simp only [OTP.generate_and_store, if_neg hrate, hcool]
  simp only [Bool.false_eq_true, if_false]
  refine ⟨by trivial, ?_, ?_, ?_, ?_, ?_, ?_⟩
  · by_cases htr : pyTruthy (Store.get s now (rateLimitKey id)) = false
    · simp only [if_pos htr]
      rw [Store.setex_apply_ne _ _ _ _ _ (otpKey_ne_rateLimitKey id),
        Store.setex_apply_ne _ _ _ _ _ (otpKey_ne_resendKey id),
        Store.setex_apply_ne _ _ _ _ _ (otpKey_ne_attemptsKey id),
        Store.setex_apply_self]
      rfl
    · simp only [if_neg htr]
      rw [Store.incr_apply_ne _ _ _ (otpKey_ne_rateLimitKey id),
        Store.setex_apply_ne _ _ _ _ _ (otpKey_ne_resendKey id),
        Store.setex_apply_ne _ _ _ _ _ (otpKey_ne_attemptsKey id),
        Store.setex_apply_self]
      rfl
  · by_cases htr : pyTruthy (Store.get s now (rateLimitKey id)) = false
    · simp only [if_pos htr]
      rw [Store.setex_apply_ne _ _ _ _ _ (attemptsKey_ne_rateLimitKey id),
        Store.setex_apply_ne _ _ _ _ _ (attemptsKey_ne_resendKey id),
        Store.setex_apply_self]
      rfl
    · simp only [if_neg htr]
      rw [Store.incr_apply_ne _ _ _ (attemptsKey_ne_rateLimitKey id),
        Store.setex_apply_ne _ _ _ _ _ (attemptsKey_ne_resendKey id),
        Store.setex_apply_self]
      rfl
  · by_cases htr : pyTruthy (Store.get s now (rateLimitKey id)) = false
    · simp only [if_pos htr]
      rw [Store.setex_apply_ne _ _ _ _ _ (resendKey_ne_rateLimitKey id),
        Store.setex_apply_self]
      rfl
    · simp only [if_neg htr]
      rw [Store.incr_apply_ne _ _ _ (resendKey_ne_rateLimitKey id),
        Store.setex_apply_self]
      rfl
  · intro htr
    simp only [if_pos htr]
    rw [Store.setex_apply_self]
    rfl
  · intro v tex hv hne
    have htr : ¬(pyTruthy (Store.get s now (rateLimitKey id)) = false) := by
      rw [Store.get_of_liveAt hv]
      simp [pyTruthy, hne]
    simp only [if_neg htr]
    have hlift : liveAt now
        ((((s.setex now (otpKey id) (genOtp cfg.otp_length rand)
          (some (cfg.otp_expire_minutes * 60))).setex now (attemptsKey id) "0"
          (some (cfg.otp_expire_minutes * 60))).setex now (resendKey id) "1"
          (some cfg.resend_cooldown)) (rateLimitKey id)) = some ⟨v, tex⟩ := by
      rw [Store.setex_apply_ne _ _ _ _ _ (Ne.symm (resendKey_ne_rateLimitKey id)),
        Store.setex_apply_ne _ _ _ _ _ (Ne.symm (attemptsKey_ne_rateLimitKey id)),
        Store.setex_apply_ne _ _ _ _ _ (Ne.symm (otpKey_ne_rateLimitKey id))]
      exact hv
    exact Store.incr_apply_self hlift
  · intro q h1 h2 h3 h4
    by_cases htr : pyTruthy (Store.get s now (rateLimitKey id)) = false
    · simp only [if_pos htr]
      rw [Store.setex_apply_ne _ _ _ _ _ h4, Store.setex_apply_ne _ _ _ _ _ h3,
        Store.setex_apply_ne _ _ _ _ _ h2, Store.setex_apply_ne _ _ _ _ _ h1]
    · simp only [if_neg htr]
      rw [Store.incr_apply_ne _ _ _ h4, Store.setex_apply_ne _ _ _ _ _ h3,
        Store.setex_apply_ne _ _ _ _ _ h2, Store.setex_apply_ne _ _ _ _ _ h1]

theorem toString_intCast (m : Nat) : toString ((m : Int)) = toString m := rfl

theorem Store.incr_apply_self_absent {s : Store} {now : Nat} {k : String}
    (h : liveAt now (s k) = none) : (s.incr now k).1 k = some ⟨"1", none⟩ := by
  unfold Store.incr
  rw [h]
  simp [Store.setex]

/-- `OTPService.verify` with no live OTP record: fails with the
expired-or-not-found message and leaves the store untouched. -/
theorem verify_no_otp (cfg : OTPConfig) (s : Store) (now : Nat) (id code : String)
    (h : pyTruthy (Store.get s now (otpKey id)) = false) :
    OTP.verify cfg s now id code = ((false, some "OTP expired or not found"), s) := by
  simp only [OTP.verify, if_pos h]

/-- `OTPService.verify` with a live record, a passing attempts pre-check and
the exact stored code: succeeds and deletes both records. -/
theorem verify_correct (cfg : OTPConfig) (s : Store) (now : Nat) (id : String)
    {c : String} {cex : Option Nat}
    (hc : liveAt now (s (otpKey id)) = some ⟨c, cex⟩) (hcne : c ≠ "")
    (hatt : ¬(pyTruthy (Store.get s now (attemptsKey id)) = true ∧
      cfg.max_attempts ≤ pyInt (Store.get s now (attemptsKey id)))) :
    OTP.verify cfg s now id c = ((true, none), (s.del (otpKey id)).del (attemptsKey id)) := by
  have hg : Store.get s now (otpKey id) = some c := Store.get_of_liveAt hc
  have h1 : ¬(pyTruthy (Store.get s now (otpKey id)) = false) := by
    rw [hg]; simp [pyTruthy, hcne]
  have hwc : ¬(c ≠ (Store.get s now (otpKey id)).getD "") := by
    rw [hg]; simp
  simp only [OTP.verify, if_neg h1, if_neg hatt, if_neg hwc]

/-- `OTPService.verify` with a live record and a wrong code: the attempts
counter outcome for every starting count `a` (absent treated as `0`). -/
theorem verify_wrong (cfg : OTPConfig) (s : Store) (now : Nat) (id : String)
    {c w : String} {cex : Option Nat} {a : Nat}
    (hc : liveAt now (s (otpKey id)) = some ⟨c, cex⟩) (hcne : c ≠ "")
    (hatt : attemptsState s now id a) (hw : w ≠ c) :
    (OTP.verify cfg s now id w).1.1 = false ∧
    (if cfg.max_attempts ≤ a + 1 then
      (OTP.verify cfg s now id w).2 (otpKey id) = none ∧
      (OTP.verify cfg s now id w).2 (attemptsKey id) = none ∧
      ((OTP.verify cfg s now id w).1.2 = some "Invalid OTP. Maximum attempts exceeded" ∨
       (OTP.verify cfg s now id w).1.2 =
         some "Maximum verification attempts exceeded. Please request a new OTP")
    else
      (OTP.verify cfg s now id w).1.2 =
        some ("Invalid OTP. " ++ toString (cfg.max_attempts - (a + 1)) ++
          " attempts remaining") ∧
      Store.get (OTP.verify cfg s now id w).2 now (attemptsKey id) =
        some (toString (a + 1)) ∧
      Store.get (OTP.verify cfg s now id w).2 now (otpKey id) = some c) := by
  have hg : Store.get s now (otpKey id) = some c := Store.get_of_liveAt hc
  have h1 : ¬(pyTruthy (Store.get s now (otpKey id)) = false) := by
    rw [hg]; simp [pyTruthy, hcne]
  have hwc : w ≠ (Store.get s now (otpKey id)).getD "" := by
    rw [hg]; simpa using hw
  rcases hatt with ⟨v, tex, hv, hpv⟩ | ⟨hv, ha0⟩
  · have hga : Store.get s now (attemptsKey id) = some v := Store.get_of_liveAt hv
    have htru : pyTruthy (some v) = true := pyTruthy_of_parse hpv
    have hpy : pyInt (some v) = a := pyInt_of_parse hpv
    by_cases hpre : cfg.max_attempts ≤ a
    · have hcond : pyTruthy (Store.get s now (attemptsKey id)) = true ∧
          cfg.max_attempts ≤ pyInt (Store.get s now (attemptsKey id)) := by
        rw [hga, htru, hpy]
        exact ⟨rfl, hpre⟩
      have hEq : OTP.verify cfg s now id w =
          ((false, some "Maximum verification attempts exceeded. Please request a new OTP"),
            (s.del (otpKey id)).del (attemptsKey id)) := by
        simp only [OTP.verify, if_neg h1, if_pos hcond]
      rw [hEq]
      dsimp only
      have hle : cfg.max_attempts ≤ a + 1 := Nat.le_trans hpre (Nat.le_succ a)
      refine ⟨rfl, ?_⟩
      rw [if_pos hle]
      refine ⟨?_, ?_, Or.inr rfl⟩
      · rw [Store.del_apply_ne _ _ (otpKey_ne_attemptsKey id), Store.del_apply_self]
      · rw [Store.del_apply_self]
    · have hcond : ¬(pyTruthy (Store.get s now (attemptsKey id)) = true ∧
          cfg.max_attempts ≤ pyInt (Store.get s now (attemptsKey id))) := by
        rw [hga, hpy]
        exact fun h => hpre h.2
      have hcnt : (if pyTruthy (Store.get s now (attemptsKey id)) = true
          then pyInt (Store.get s now (attemptsKey id)) + 1 else 1) = a + 1 := by
        rw [hga, htru, hpy, if_pos rfl]
      by_cases hfin : cfg.max_attempts ≤ a + 1
      · have hrem : (cfg.max_attempts : Int) - ((a + 1 : Nat) : Int) ≤ 0 := by
          push_cast
          omega
        have hEq : OTP.verify cfg s now id w =
            ((false, some "Invalid OTP. Maximum attempts exceeded"),
              (((s.incr now (attemptsKey id)).1.del (otpKey id)).del (attemptsKey id))) := by
          simp only [OTP.verify, if_neg h1, if_neg hcond, if_pos hwc, hcnt, if_pos hrem]
        rw [hEq]
        dsimp only
        refine ⟨rfl, ?_⟩
        rw [if_pos hfin]
        refine ⟨?_, ?_, Or.inl rfl⟩
        · rw [Store.del_apply_ne _ _ (otpKey_ne_attemptsKey id), Store.del_apply_self]
        · rw [Store.del_apply_self]
      · have hrem : ¬((cfg.max_attempts : Int) - ((a + 1 : Nat) : Int) ≤ 0) := by
          push_cast
          omega
        have hmsg : toString ((cfg.max_attempts : Int) - ((a + 1 : Nat) : Int)) =
            toString (cfg.max_attempts - (a + 1)) := by
          rw [show (cfg.max_attempts : Int) - ((a + 1 : Nat) : Int) =
            ((cfg.max_attempts - (a + 1) : Nat) : Int) by push_cast; omega, toString_intCast]
        have hEq : OTP.verify cfg s now id w =
            ((false, some ("Invalid OTP. " ++ toString (cfg.max_attempts - (a + 1)) ++
              " attempts remaining")), (s.incr now (attemptsKey id)).1) := by
          simp only [OTP.verify, if_neg h1, if_neg hcond, if_pos hwc, hcnt, if_neg hrem, hmsg]
        rw [hEq]
        dsimp only
        refine ⟨rfl, ?_⟩
        rw [if_neg hfin]
        refine ⟨rfl, ?_, ?_⟩
        · have hself : (s.incr now (attemptsKey id)).1 (attemptsKey id) =
              some ⟨toString (pyInt (some v) + 1), tex⟩ := Store.incr_apply_self hv
          rw [hpy] at hself
          exact Store.get_of_liveAt (by rw [hself]; exact liveAt_same_expiry hv _)
        · exact Store.get_of_liveAt (by
            rw [Store.incr_apply_ne _ _ _ (otpKey_ne_attemptsKey id)]; exact hc)
  · have hga : Store.get s now (attemptsKey id) = none := Store.get_of_liveAt_none hv
    have hcond : ¬(pyTruthy (Store.get s now (attemptsKey id)) = true ∧
        cfg.max_attempts ≤ pyInt (Store.get s now (attemptsKey id))) := by
      rw [hga]
      simp [pyTruthy]
    have hcnt : (if pyTruthy (Store.get s now (attemptsKey id)) = true
        then pyInt (Store.get s now (attemptsKey id)) + 1 else 1) = a + 1 := by
      rw [hga, ha0]
      simp [pyTruthy]
    by_cases hfin : cfg.max_attempts ≤ a + 1
    · have hrem : (cfg.max_attempts : Int) - ((a + 1 : Nat) : Int) ≤ 0 := by
        push_cast
        omega
      have hEq : OTP.verify cfg s now id w =
          ((false, some "Invalid OTP. Maximum attempts exceeded"),
            (((s.incr now (attemptsKey id)).1.del (otpKey id)).del (attemptsKey id))) := by
        simp only [OTP.verify, if_neg h1, if_neg hcond, if_pos hwc, hcnt, if_pos hrem]
      rw [hEq]
      dsimp only
      refine ⟨rfl, ?_⟩
      rw [if_pos hfin]
      refine ⟨?_, ?_, Or.inl rfl⟩
      · rw [Store.del_apply_ne _ _ (otpKey_ne_attemptsKey id), Store.del_apply_self]
      · rw [Store.del_apply_self]
    · have hrem : ¬((cfg.max_attempts : Int) - ((a + 1 : Nat) : Int) ≤ 0) := by
        push_cast
        omega
      have hmsg : toString ((cfg.max_attempts : Int) - ((a + 1 : Nat) : Int)) =
          toString (cfg.max_attempts - (a + 1)) := by
        rw [show (cfg.max_attempts : Int) - ((a + 1 : Nat) : Int) =
          ((cfg.max_attempts - (a + 1) : Nat) : Int) by push_cast; omega, toString_intCast]
      have hEq : OTP.verify cfg s now id w =
          ((false, some ("Invalid OTP. " ++ toString (cfg.max_attempts - (a + 1)) ++
            " attempts remaining")), (s.incr now (attemptsKey id)).1) := by
        simp only [OTP.verify, if_neg h1, if_neg hcond, if_pos hwc, hcnt, if_neg hrem, hmsg]
      rw [hEq]
      dsimp only
      refine ⟨rfl, ?_⟩
      rw [if_neg hfin]
      refine ⟨rfl, ?_, ?_⟩
      · have hself : (s.incr now (attemptsKey id)).1 (attemptsKey id) =
            some ⟨"1", none⟩ := Store.incr_apply_self_absent hv
        have hone : toString (a + 1) = "1" := by rw [ha0]; decide
        rw [hone]
        exact Store.get_of_liveAt (by rw [hself]; rfl)
      · exact Store.get_of_liveAt (by
          rw [Store.incr_apply_ne _ _ _ (otpKey_ne_attemptsKey id)]; exact hc)

theorem pyInt_zero : pyInt (some "0") = 0 := by decide

/-- C3: a token issued by `create_refresh_token` carries a valid signature
and, while unexpired, decodes at the JWT layer; yet `decode_access_token`
rejects it (returns `none`), and symmetrically `decode_refresh_token`
rejects any `create_access_token` output — a token of one type never
validates as the other. -/
theorem C3_token_type_never_crosses (st : AppSettings) (sub email role : String)
    (tIssue now : Nat)
    (hr : now ≤ (create_refresh_token st sub tIssue).payload.exp)
    (ha : now ≤ (create_access_token st sub email role tIssue).payload.exp) :
    jwtDecode st (create_refresh_token st sub tIssue) now =
      some (create_refresh_token st sub tIssue).payload ∧
    decode_access_token st (create_refresh_token st sub tIssue) now = none ∧
    jwtDecode st (create_access_token st sub email role tIssue) now =
      some (create_access_token st sub email role tIssue).payload ∧
    decode_refresh_token st (create_access_token st sub email role tIssue) now = none := by
  have hr2 : now ≤ tIssue + st.refresh_token_expire_days * 24 * 60 * 60 := by
    simpa [create_refresh_token] using hr
  have ha2 : now ≤ tIssue + st.access_token_expire_minutes * 60 := by
    simpa [create_access_token] using ha
  refine ⟨?_, ?_, ?_, ?_⟩
  · simp [jwtDecode, create_refresh_token, hr2]
  · simp [decode_access_token, jwtDecode, create_refresh_token, hr2]
  · simp [jwtDecode, create_access_token, ha2]
  · simp [decode_refresh_token, jwtDecode, create_access_token, ha2]

/-- Witness for C3 at concrete inputs. -/
theorem C3_token_type_never_crosses_witness :
    decode_access_token exSettings (create_refresh_token exSettings "u1" 0) 100 = none ∧
    decode_refresh_token exSettings
      (create_access_token exSettings "u1" "a@x.com" "patient" 0) 100 = none := by
  have h := C3_token_type_never_crosses exSettings "u1" "a@x.com" "patient" 0 100
    (by decide) (by decide)
  exact ⟨h.2.1, h.2.2.2⟩

/-- C5: with the rate-limit check passing and a live resend-cooldown marker,
`generate_and_store` raises the cooldown error carrying the remaining
cooldown seconds (strictly positive) and changes no state. -/
theorem C5_resend_cooldown_blocks (cfg : OTPConfig) (rand : Nat → Fin 10) (s : Store)
    (now : Nat) (id : String) {v : String} {texp : Nat}
    (hrate : ¬(pyTruthy (Store.get s now (rateLimitKey id)) = true ∧
      cfg.rate_limit_per_hour ≤ pyInt (Store.get s now (rateLimitKey id))))
    (hmark : s (resendKey id) = some ⟨v, some texp⟩) (hlive : now < texp) :
    OTP.generate_and_store cfg rand s now id =
      (.otpError ("Please wait " ++ toString ((texp : Int) - (now : Int)) ++
        " seconds before requesting a new OTP"), s) ∧
    0 < (texp : Int) - (now : Int) := by
  have hl : liveAt now (s (resendKey id)) = some ⟨v, some texp⟩ := by
    rw [hmark]
    simp [liveAt, hlive]
  have hex : Store.existsKey s now (resendKey id) = true := by
    simp [Store.existsKey, hl]
  have httl : Store.ttl s now (resendKey id) = (texp : Int) - (now : Int) := by
    simp [Store.ttl, hl]
  constructor
  · simp only [OTP.generate_and_store, if_neg hrate, hex, httl]
    simp
  · omega

/-- Witness for C5 at concrete inputs. -/
theorem C5_resend_cooldown_blocks_witness :
    OTP.generate_and_store defaultOTPConfig randZero exStore 10 "a@x.com" =
      (.otpError ("Please wait " ++ toString ((30 : Int) - (10 : Int)) ++
        " seconds before requesting a new OTP"), exStore) ∧
    0 < (30 : Int) - (10 : Int) :=
  @C5_resend_cooldown_blocks defaultOTPConfig randZero exStore 10 "a@x.com" "1" 30
    (by decide) (by decide) (by decide)

/-- C4: when both the rate-limit and cooldown checks pass,
`generate_and_store` returns a code of exactly `otp_length` decimal digits
together with TTL `otp_expire_minutes*60`; it stores the code under the OTP
key with that TTL, resets the attempts counter to `"0"` with the same TTL,
sets the resend-cooldown marker with TTL `resend_cooldown`, and increments
the hourly rate counter (initialising it to `"1"` with a one-hour TTL on
first use, preserving its expiry otherwise). -/
theorem C4_generate_writes_all_records (cfg : OTPConfig) (rand : Nat → Fin 10)
    (s : Store) (now : Nat) (id : String)
    (hrate : ¬(pyTruthy (Store.get s now (rateLimitKey id)) = true ∧
      cfg.rate_limit_per_hour ≤ pyInt (Store.get s now (rateLimitKey id))))
    (hcool : Store.existsKey s now (resendKey id) = false) :
    (OTP.generate_and_store cfg rand s now id).1 =
      .ok (genOtp cfg.otp_length rand) (cfg.otp_expire_minutes * 60) ∧
    (genOtp cfg.otp_length rand).length = cfg.otp_length ∧
    (∀ ch ∈ (genOtp cfg.otp_length rand).toList, '0' ≤ ch ∧ ch ≤ '9') ∧
    (OTP.generate_and_store cfg rand s now id).2 (otpKey id) =
      some ⟨genOtp cfg.otp_length rand, some (now + cfg.otp_expire_minutes * 60)⟩ ∧
    (OTP.generate_and_store cfg rand s now id).2 (attemptsKey id) =
      some ⟨"0", some (now + cfg.otp_expire_minutes * 60)⟩ ∧
    (OTP.generate_and_store cfg rand s now id).2 (resendKey id) =
      some ⟨"1", some (now + cfg.resend_cooldown)⟩ ∧
    (pyTruthy (Store.get s now (rateLimitKey id)) = false →
      (OTP.generate_and_store cfg rand s now id).2 (rateLimitKey id) =
        some ⟨"1", some (now + 3600)⟩) ∧
    (∀ v tex, liveAt now (s (rateLimitKey id)) = some ⟨v, tex⟩ → v ≠ "" →
      (OTP.generate_and_store cfg rand s now id).2 (rateLimitKey id) =
        some ⟨toString (pyInt (some v) + 1), tex⟩) := by
  obtain ⟨h1, h2, h3, h4, h5, h6, _⟩ := generate_success cfg rand s now id hrate hcool
  exact ⟨h1, genOtp_length cfg.otp_length rand, genOtp_digits cfg.otp_length rand,
    h2, h3, h4, h5, h6⟩

/-- Witness for C4 at concrete inputs. -/
theorem C4_generate_writes_all_records_witness :
    (OTP.generate_and_store defaultOTPConfig randZero emptyStore 0 "a@x.com").1 =
      .ok (genOtp defaultOTPConfig.otp_length randZero)
        (defaultOTPConfig.otp_expire_minutes * 60) ∧
    (genOtp defaultOTPConfig.otp_length randZero).length = defaultOTPConfig.otp_length ∧
    (OTP.generate_and_store defaultOTPConfig randZero emptyStore 0 "a@x.com").2
      (otpKey "a@x.com") =
      some ⟨genOtp defaultOTPConfig.otp_length randZero, some 300⟩ := by
  have h := C4_generate_writes_all_records defaultOTPConfig randZero emptyStore 0 "a@x.com"
    (by decide) (by decide)
  exact ⟨h.1, h.2.1, h.2.2.2.1⟩

/-- C2: OTP verification is single-use.  With no live OTP record, `verify`
fails "expired or not found" for every code without changing state; after a
fresh generation, submitting the exact generated code succeeds and deletes
both the OTP record and the attempts counter, so repeating the same
submission fails "expired or not found". -/
theorem C2_verification_single_use (cfg : OTPConfig) (s : Store) (id : String) :
    (∀ now code, pyTruthy (Store.get s now (otpKey id)) = false →
      OTP.verify cfg s now id code = ((false, some "OTP expired or not found"), s)) ∧
    (∀ rand now now2,
      ¬(pyTruthy (Store.get s now (rateLimitKey id)) = true ∧
        cfg.rate_limit_per_hour ≤ pyInt (Store.get s now (rateLimitKey id))) →
      Store.existsKey s now (resendKey id) = false →
      0 < cfg.otp_length → 0 < cfg.max_attempts →
      now2 < now + cfg.otp_expire_minutes * 60 →
      (OTP.generate_and_store cfg rand s now id).1 =
        .ok (genOtp cfg.otp_length rand) (cfg.otp_expire_minutes * 60) ∧
      (OTP.verify cfg (OTP.generate_and_store cfg rand s now id).2 now2 id
        (genOtp cfg.otp_length rand)).1 = (true, none) ∧
      (OTP.verify cfg (OTP.generate_and_store cfg rand s now id).2 now2 id
        (genOtp cfg.otp_length rand)).2 (otpKey id) = none ∧
      (OTP.verify cfg (OTP.generate_and_store cfg rand s now id).2 now2 id
        (genOtp cfg.otp_length rand)).2 (attemptsKey id) = none ∧
      (∀ now3, OTP.verify cfg
        (OTP.verify cfg (OTP.generate_and_store cfg rand s now id).2 now2 id
          (genOtp cfg.otp_length rand)).2 now3 id (genOtp cfg.otp_length rand) =
        ((false, some "OTP expired or not found"),
          (OTP.verify cfg (OTP.generate_and_store cfg rand s now id).2 now2 id
            (genOtp cfg.otp_length rand)).2))) := by
  constructor
  · intro now code h
    exact verify_no_otp cfg s now id code h
  · intro rand now now2 hrate hcool hlen hmax hexp
    obtain ⟨hres, hotp, hatt, _, _, _, _⟩ := generate_success cfg rand s now id hrate hcool
    have hcl : liveAt now2 ((OTP.generate_and_store cfg rand s now id).2 (otpKey id)) =
        some ⟨genOtp cfg.otp_length rand, some (now + cfg.otp_expire_minutes * 60)⟩ := by
      rw [hotp]
      simp [liveAt, hexp]
    have hal : liveAt now2 ((OTP.generate_and_store cfg rand s now id).2 (attemptsKey id)) =
        some ⟨"0", some (now + cfg.otp_expire_minutes * 60)⟩ := by
      rw [hatt]
      simp [liveAt, hexp]
    have hattcond : ¬(pyTruthy (Store.get (OTP.generate_and_store cfg rand s now id).2
        now2 (attemptsKey id)) = true ∧
        cfg.max_attempts ≤ pyInt (Store.get (OTP.generate_and_store cfg rand s now id).2
          now2 (attemptsKey id))) := by
      rw [Store.get_of_liveAt hal]
      intro hcc
      have h2 := hcc.2
      rw [pyInt_zero] at h2
      omega
    have hver := verify_correct cfg (OTP.generate_and_store cfg rand s now id).2 now2 id
      hcl (genOtp_ne_empty rand hlen) hattcond
    have hdelotp : (OTP.verify cfg (OTP.generate_and_store cfg rand s now id).2 now2 id
        (genOtp cfg.otp_length rand)).2 (otpKey id) = none := by
      rw [hver]
      dsimp only
      rw [Store.del_apply_ne _ _ (otpKey_ne_attemptsKey id), Store.del_apply_self]
    have hdelatt : (OTP.verify cfg (OTP.generate_and_store cfg rand s now id).2 now2 id
        (genOtp cfg.otp_length rand)).2 (attemptsKey id) = none := by
      rw [hver]
      dsimp only
      rw [Store.del_apply_self]
    refine ⟨hres, by rw [hver], hdelotp, hdelatt, ?_⟩
    intro now3
    apply verify_no_otp
    rw [Store.get_of_liveAt_none (by rw [hdelotp]; rfl)]
    rfl

/-- Witness for C2 at concrete inputs. -/
theorem C2_verification_single_use_witness :
    OTP.verify defaultOTPConfig emptyStore 0 "a@x.com" "123456" =
      ((false, some "OTP expired or not found"), emptyStore) ∧
    (OTP.verify defaultOTPConfig
      (OTP.generate_and_store defaultOTPConfig randZero emptyStore 0 "a@x.com").2 10
      "a@x.com" (genOtp defaultOTPConfig.otp_length randZero)).1 = (true, none) := by
  have h := C2_verification_single_use defaultOTPConfig emptyStore "a@x.com"
  exact ⟨h.1 0 "123456" (by decide),
    (h.2 randZero 0 10 (by decide) (by decide) (by decide) (by decide) (by decide)).2.1⟩

/-- C1: with a live OTP record and attempts counter `a` (absent treated as
`0`), submitting a non-matching code fails; when the post-increment count
reaches `max_attempts` both the OTP record and the counter are deleted, the
error reports attempts exhaustion, and every later submission — even of the
stored code — fails "expired or not found"; otherwise the failure reports
exactly `max_attempts - (a+1)` remaining attempts, the counter now reads
`a+1`, and the OTP record survives. -/
theorem C1_wrong_code_attempt_accounting (cfg : OTPConfig) (s : Store) (now : Nat)
    (id : String) {c w : String} {cex : Option Nat} {a : Nat}
    (hc : liveAt now (s (otpKey id)) = some ⟨c, cex⟩) (hcne : c ≠ "")
    (hatt : attemptsState s now id a) (hw : w ≠ c) :
    (OTP.verify cfg s now id w).1.1 = false ∧
    (if cfg.max_attempts ≤ a + 1 then
      (OTP.verify cfg s now id w).2 (otpKey id) = none ∧
      (OTP.verify cfg s now id w).2 (attemptsKey id) = none ∧
      ((OTP.verify cfg s now id w).1.2 = some "Invalid OTP. Maximum attempts exceeded" ∨
       (OTP.verify cfg s now id w).1.2 =
         some "Maximum verification attempts exceeded. Please request a new OTP") ∧
      (∀ now2 w2, OTP.verify cfg (OTP.verify cfg s now id w).2 now2 id w2 =
        ((false, some "OTP expired or not found"), (OTP.verify cfg s now id w).2))
    else
      (OTP.verify cfg s now id w).1.2 =
        some ("Invalid OTP. " ++ toString (cfg.max_attempts - (a + 1)) ++
          " attempts remaining") ∧
      Store.get (OTP.verify cfg s now id w).2 now (attemptsKey id) =
        some (toString (a + 1)) ∧
      Store.get (OTP.verify cfg s now id w).2 now (otpKey id) = some c) := by
  obtain ⟨hfalse, hrest⟩ := verify_wrong cfg s now id hc hcne hatt hw
  refine ⟨hfalse, ?_⟩
  by_cases hif : cfg.max_attempts ≤ a + 1
  · rw [if_pos hif] at hrest ⊢
    obtain ⟨h1, h2, h3⟩ := hrest
    refine ⟨h1, h2, h3, ?_⟩
    intro now2 w2
    apply verify_no_otp
    rw [Store.get_of_liveAt_none (by rw [h1]; rfl)]
    rfl
  · rw [if_neg hif] at hrest ⊢
    exact hrest

/-- Witness for C1 at concrete inputs: starting from counter `0` with
`max_attempts = 3`, a wrong code reports two attempts remaining. -/
theorem C1_wrong_code_attempt_accounting_witness :
    (OTP.verify defaultOTPConfig exStore 0 "a@x.com" "000000").1.1 = false ∧
    (OTP.verify defaultOTPConfig exStore 0 "a@x.com" "000000").1.2 =
      some "Invalid OTP. 2 attempts remaining" ∧
    Store.get (OTP.verify defaultOTPConfig exStore 0 "a@x.com" "000000").2 0
      (attemptsKey "a@x.com") = some "1" := by
  have h := @C1_wrong_code_attempt_accounting defaultOTPConfig exStore 0 "a@x.com"
    "123456" "000000" (some 300) 0 (by decide) (by decide)
    (Or.inl ⟨"0", some 300, by decide, by decide⟩) (by decide)
  obtain ⟨h1, h2⟩ := h
  rw [if_neg (by decide)] at h2
  obtain ⟨hmsg, hcnt, _⟩ := h2
  refine ⟨h1, ?_, ?_⟩
  · rw [hmsg]
    decide
  · rw [hcnt]
    decide

theorem bool_eq_false_of_ne_true {b : Bool} (h : ¬b = true) : b = false := by
  cases b
  · rfl
  · exact absurd rfl h

/-- One step of the rate-counter invariant under the default configuration:
a call either succeeds below the ceiling and bumps the counter, or fails
leaving the store untouched. -/
theorem rateInv_step (rand : Nat → Fin 10) (id : String) (tend : Nat) {k : Nat} {s : Store}
    (t : Nat) (hk : k ≤ 5) (hinv : rateInv id tend k s) (ht : t < tend)
    (ht2 : tend ≤ t + 3600) :
    (k < 5 ∧ isOk (OTP.generate_and_store defaultOTPConfig rand s t id).1 = true ∧
      rateInv id tend (k + 1) (OTP.generate_and_store defaultOTPConfig rand s t id).2) ∨
    (isOk (OTP.generate_and_store defaultOTPConfig rand s t id).1 = false ∧
      (OTP.generate_and_store defaultOTPConfig rand s t id).2 = s) := by
  rcases hinv with ⟨hk0, hnone⟩ | ⟨hk1, texp, hsome, htend⟩
  · have hget : Store.get s t (rateLimitKey id) = none :=
      Store.get_of_liveAt_none (by rw [hnone]; rfl)
    have hrate : ¬(pyTruthy (Store.get s t (rateLimitKey id)) = true ∧
        defaultOTPConfig.rate_limit_per_hour ≤ pyInt (Store.get s t (rateLimitKey id))) := by
      rw [hget]
      simp [pyTruthy]
    by_cases hcool : Store.existsKey s t (resendKey id) = true
    · right
      have hEq : OTP.generate_and_store defaultOTPConfig rand s t id =
          (.otpError ("Please wait " ++ toString (Store.ttl s t (resendKey id)) ++
            " seconds before requesting a new OTP"), s) := by
        simp only [OTP.generate_and_store, if_neg hrate, if_pos hcool]
      rw [hEq]
      exact ⟨rfl, rfl⟩
    · have hcool2 : Store.existsKey s t (resendKey id) = false :=
        bool_eq_false_of_ne_true hcool
      obtain ⟨hres, _, _, _, hrl1, _, _⟩ :=
        generate_success defaultOTPConfig rand s t id hrate hcool2
      left
      refine ⟨by omega, by rw [hres]; rfl, ?_⟩
      right
      refine ⟨by omega, t + 3600, ?_, by omega⟩
      have := hrl1 (by rw [hget]; rfl)
      rw [this, hk0]
      rfl
  · have hl : liveAt t (s (rateLimitKey id)) = some ⟨toString k, some texp⟩ := by
      rw [hsome]
      simp [liveAt]
      omega
    have hp : pyParseInt (toString k) = some k := parse_toString_le5 hk
    have hget : Store.get s t (rateLimitKey id) = some (toString k) :=
      Store.get_of_liveAt hl
    by_cases hk5 : 5 ≤ k
    · right
      have hcond : pyTruthy (Store.get s t (rateLimitKey id)) = true ∧
          defaultOTPConfig.rate_limit_per_hour ≤ pyInt (Store.get s t (rateLimitKey id)) := by
        rw [hget, pyInt_of_parse hp]
        exact ⟨pyTruthy_of_parse hp, hk5⟩
      have hEq : OTP.generate_and_store defaultOTPConfig rand s t id =
          (.rateLimitError "Too many OTP requests. Please try again later.", s) := by
        simp only [OTP.generate_and_store, if_pos hcond]
      rw [hEq]
      exact ⟨rfl, rfl⟩
    · have hrate : ¬(pyTruthy (Store.get s t (rateLimitKey id)) = true ∧
          defaultOTPConfig.rate_limit_per_hour ≤ pyInt (Store.get s t (rateLimitKey id))) := by
        rw [hget, pyInt_of_parse hp]
        intro hcc
        exact hk5 hcc.2
      by_cases hcool : Store.existsKey s t (resendKey id) = true
      · right
        have hEq : OTP.generate_and_store defaultOTPConfig rand s t id =
            (.otpError ("Please wait " ++ toString (Store.ttl s t (resendKey id)) ++
              " seconds before requesting a new OTP"), s) := by
          simp only [OTP.generate_and_store, if_neg hrate, if_pos hcool]
        rw [hEq]
        exact ⟨rfl, rfl⟩
      · have hcool2 : Store.existsKey s t (resendKey id) = false :=
          bool_eq_false_of_ne_true hcool
        obtain ⟨hres, _, _, _, _, hrl2, _⟩ :=
          generate_success defaultOTPConfig rand s t id hrate hcool2
        left
        refine ⟨by omega, by rw [hres]; rfl, ?_⟩
        right
        refine ⟨by omega, texp, ?_, htend⟩
        have := hrl2 (toString k) (some texp) hl (ne_empty_of_parse hp)
        rw [this, pyInt_of_parse hp]

/-- Induction along a trace of `generate_and_store` calls: successes so far
plus the remaining successes never exceed the default ceiling of `5`. -/
theorem runGen_count (rand : Nat → Fin 10) (id : String) (tend : Nat) :
    ∀ (ts : List Nat) (s : Store) (k : Nat), k ≤ 5 → rateInv id tend k s →
    (∀ t ∈ ts, t < tend ∧ tend ≤ t + 3600) →
    countOk (runGen defaultOTPConfig rand id s ts).1 + k ≤ 5 := by
  intro ts
  induction ts with
  | nil =>
    intro s k hk _ _
    simpa [runGen, countOk] using hk
  | cons t ts ih =>
    intro s k hk hinv hts
    obtain ⟨ht, ht2⟩ := hts t (List.mem_cons_self t ts)
    have hts2 : ∀ u ∈ ts, u < tend ∧ tend ≤ u + 3600 :=
      fun u hu => hts u (List.mem_cons_of_mem t hu)
    rcases rateInv_step rand id tend t hk hinv ht ht2 with ⟨hklt, hok, hinv2⟩ |
      ⟨hnok, hsame⟩
    · have hrec := ih (OTP.generate_and_store defaultOTPConfig rand s t id).2 (k + 1)
        (by omega) hinv2 hts2
      simp only [runGen, countOk, List.filter_cons, hok, eq_self_iff_true, if_true,
        List.length_cons] at hrec ⊢
      omega
    · have hrec := ih (OTP.generate_and_store defaultOTPConfig rand s t id).2 k
        hk (by rw [hsame]; exact hinv) hts2
      simp only [runGen, countOk, List.filter_cons, hnok] at hrec ⊢
      simp only [Bool.false_eq_true, if_false] at hrec ⊢
      omega

/-- C6: a live hourly rate counter at or above the configured ceiling makes
`generate_and_store` fail with the rate-limit error and leave the store
untouched, with no hypothesis on the cooldown marker (the rate check comes
first); and, under the default configuration, a fresh identifier cannot
accumulate more than `5` successful generations from calls lying within one
hour of the first call. -/
theorem C6_hourly_rate_ceiling :
    (∀ (cfg : OTPConfig) (rand : Nat → Fin 10) (s : Store) (now : Nat) (id : String),
      pyTruthy (Store.get s now (rateLimitKey id)) = true →
      cfg.rate_limit_per_hour ≤ pyInt (Store.get s now (rateLimitKey id)) →
      OTP.generate_and_store cfg rand s now id =
        (.rateLimitError "Too many OTP requests. Please try again later.", s)) ∧
    (∀ (rand : Nat → Fin 10) (id : String) (s : Store) (t0 : Nat) (ts : List Nat),
      s (rateLimitKey id) = none →
      (∀ t ∈ ts, t0 ≤ t ∧ t < t0 + 3600) →
      countOk (runGen defaultOTPConfig rand id s ts).1 ≤ 5) := by
  constructor
  · intro cfg rand s now id h1 h2
    simp only [OTP.generate_and_store, if_pos (And.intro h1 h2)]
  · intro rand id s t0 ts hnone hts
    have h := runGen_count rand id (t0 + 3600) ts s 0 (by omega)
      (Or.inl ⟨rfl, hnone⟩)
      (fun t ht => by
        obtain ⟨h1, h2⟩ := hts t ht
        exact ⟨h2, by omega⟩)
    omega

/-- Witness for C6 at concrete inputs: a counter reading `5` blocks the
call, and seven calls in the first hour from a fresh store yield at most
five successes. -/
theorem C6_hourly_rate_ceiling_witness :
    OTP.generate_and_store defaultOTPConfig randZero exRateStore 10 "a@x.com" =
      (.rateLimitError "Too many OTP requests. Please try again later.", exRateStore) ∧
    countOk (runGen defaultOTPConfig randZero "a@x.com" emptyStore
      [0, 100, 200, 300, 400, 500, 600]).1 ≤ 5 :=
  ⟨C6_hourly_rate_ceiling.1 defaultOTPConfig randZero exRateStore 10 "a@x.com"
    (by decide) (by decide),
   C6_hourly_rate_ceiling.2 randZero "a@x.com" emptyStore 0
    [0, 100, 200, 300, 400, 500, 600] rfl (by decide)⟩

/-- C7: `login` answers a missing (or soft-deleted) username and a wrong
password with the identical generic failure — the two runs are equal — while
a correct password on an inactive or unverified account yields failures
distinct from that generic one. -/
theorem C7_login_failure_taxonomy (st : AppSettings) (verifyPw : String → String → Bool)
    (db : DB) (now : Nat) :
    (∀ d1 d2 u, findByIdentifier db d1.username = none →
      findByIdentifier db d2.username = some u →
      verifyPw d2.password u.password_hash = false →
      AuthService.login st verifyPw db now d1 =
        (.error (.authenticationError "Invalid credentials"), db) ∧
      AuthService.login st verifyPw db now d2 =
        (.error (.authenticationError "Invalid credentials"), db) ∧
      AuthService.login st verifyPw db now d1 = AuthService.login st verifyPw db now d2) ∧
    (∀ d u, findByIdentifier db d.username = some u →
      verifyPw d.password u.password_hash = true → u.is_active = true →
      u.is_verified = false →
      AuthService.login st verifyPw db now d =
        (.error (.authenticationError
          "Account not verified. Please verify your email/phone"), db) ∧
      (AuthEx.authenticationError "Account not verified. Please verify your email/phone" ≠
        AuthEx.authenticationError "Invalid credentials")) ∧
    (∀ d u, findByIdentifier db d.username = some u →
      verifyPw d.password u.password_hash = true → u.is_active = false →
      AuthService.login st verifyPw db now d =
        (.error (.authenticationError "Account is inactive"), db) ∧
      (AuthEx.authenticationError "Account is inactive" ≠
        AuthEx.authenticationError "Invalid credentials")) := by
  refine ⟨?_, ?_, ?_⟩
  · intro d1 d2 u h1 h2 hpw
    have e1 : AuthService.login st verifyPw db now d1 =
        (.error (.authenticationError "Invalid credentials"), db) := by
      simp only [AuthService.login, h1]
    have e2 : AuthService.login st verifyPw db now d2 =
        (.error (.authenticationError "Invalid credentials"), db) := by
      simp only [AuthService.login, h2]
      rw [if_pos hpw]
    exact ⟨e1, e2, by rw [e1, e2]⟩
  · intro d u hf hpw hact hver
    constructor
    · have hpw2 : ¬(verifyPw d.password u.password_hash = false) := by
        rw [hpw]
        simp
      have hact2 : ¬(u.is_active = false) := by
        rw [hact]
        simp
      simp only [AuthService.login, hf]
      rw [if_neg hpw2, if_neg hact2, if_pos hver]
    · decide
  · intro d u hf hpw hact
    constructor
    · have hpw2 : ¬(verifyPw d.password u.password_hash = false) := by
        rw [hpw]
        simp
      simp only [AuthService.login, hf]
      rw [if_neg hpw2, if_pos hact]
    · decide

/-- Witness for C7 at concrete inputs. -/
theorem C7_login_failure_taxonomy_witness :
    AuthService.login exSettings exVerifyPw exDB 0 ⟨"nobody@x.com", "Abc12345!", false⟩ =
      (.error (.authenticationError "Invalid credentials"), exDB) ∧
    AuthService.login exSettings exVerifyPw exDB 0 ⟨"a@x.com", "wrong-pass", false⟩ =
      (.error (.authenticationError "Invalid credentials"), exDB) ∧
    AuthService.login exSettings exVerifyPw exDB 0 ⟨"b@x.com", "Abc12345!", false⟩ =
      (.error (.authenticationError
        "Account not verified. Please verify your email/phone"), exDB) ∧
    AuthService.login exSettings exVerifyPw exDB 0 ⟨"c@x.com", "Abc12345!", false⟩ =
      (.error (.authenticationError "Account is inactive"), exDB) := by
  have h := C7_login_failure_taxonomy exSettings exVerifyPw exDB 0
  have h1 := h.1 ⟨"nobody@x.com", "Abc12345!", false⟩ ⟨"a@x.com", "wrong-pass", false⟩
    exUser (by decide) (by decide) (by decide)
  have h2 := h.2.1 ⟨"b@x.com", "Abc12345!", false⟩ exUserUnverified
    (by decide) (by decide) (by decide) (by decide)
  have h3 := h.2.2 ⟨"c@x.com", "Abc12345!", false⟩ exUserInactive
    (by decide) (by decide) (by decide)
  exact ⟨h1.1, h1.2.1, h2.1, h3.1⟩

/-- C8: a registration whose password passes the strength policy but whose
email, phone, or (when provided) Emirates ID already belongs to a
non-deleted record fails with a `DuplicateError` — whatever the other
fields — and creates no user, patient, or ephemeral-store record. -/
theorem C8_duplicate_identity_rejected (cfg : OTPConfig) (minLen : Nat)
    (hashPw : String → String) (newId : String) (rand : Nat → Fin 10)
    (db : DB) (s : Store) (now : Nat) (data : RegisterRequest)
    (hpw : (validate_password_strength minLen data.password).1 = true)
    (hdup : (∃ u ∈ db.users, u.email = data.email ∧ u.deleted_at = none) ∨
      (∃ u ∈ db.users, u.phone = data.phone ∧ u.deleted_at = none) ∨
      (∃ v, data.emirates_id = some v ∧ v ≠ "" ∧
        ∃ p ∈ db.patients, p.emirates_id = some v ∧ p.deleted_at = none)) :
    AuthService.register_user cfg minLen hashPw newId rand db s now data =
      (.error (.duplicateError "Email already registered"), db, s) ∨
    AuthService.register_user cfg minLen hashPw newId rand db s now data =
      (.error (.duplicateError "Phone number already registered"), db, s) ∨
    AuthService.register_user cfg minLen hashPw newId rand db s now data =
      (.error (.duplicateError "Emirates ID already registered"), db, s) := by
  have hv : ¬((validate_password_strength minLen data.password).1 = false) := by
    rw [hpw]
    simp
  by_cases he : (db.users.find? (fun u => u.email == data.email &&
      u.deleted_at == none)).isSome = true
  · exact Or.inl (by simp only [AuthService.register_user, if_neg hv, if_pos he])
  · by_cases hph : (db.users.find? (fun u => u.phone == data.phone &&
        u.deleted_at == none)).isSome = true
    · exact Or.inr (Or.inl
        (by simp only [AuthService.register_user, if_neg hv, if_neg he, if_pos hph]))
    · rcases hdup with ⟨u, hu, hue, hud⟩ | ⟨u, hu, hup, hud⟩ | ⟨v, hveq, hvne, p, hp, hpe, hpd⟩
      · exact absurd (List.find?_isSome.mpr ⟨u, hu, by rw [hue, hud]; simp⟩) he
      · exact absurd (List.find?_isSome.mpr ⟨u, hu, by rw [hup, hud]; simp⟩) hph
      · have hem : pyTruthy data.emirates_id = true ∧
            (db.patients.find? (fun p => p.emirates_id == data.emirates_id &&
              p.deleted_at == none)).isSome = true := by
          constructor
          · rw [hveq]
            simp [pyTruthy, hvne]
          · exact List.find?_isSome.mpr ⟨p, hp, by rw [hpe, hveq, hpd]; simp⟩
        exact Or.inr (Or.inr (by
          simp only [AuthService.register_user, if_neg hv, if_neg he, if_neg hph,
            if_pos hem]))

/-- Witness for C8 at concrete inputs: re-registering the already-taken
email `a@x.com`. -/
theorem C8_duplicate_identity_rejected_witness :
    AuthService.register_user defaultOTPConfig 8 exHash "u9" randZero exDB
      emptyStore 0 ⟨"B", "a@x.com", "+971509999999", "Abc12345!", none⟩ =
      (.error (.duplicateError "Email already registered"), exDB, emptyStore) ∨
    AuthService.register_user defaultOTPConfig 8 exHash "u9" randZero exDB
      emptyStore 0 ⟨"B", "a@x.com", "+971509999999", "Abc12345!", none⟩ =
      (.error (.duplicateError "Phone number already registered"), exDB, emptyStore) ∨
    AuthService.register_user defaultOTPConfig 8 exHash "u9" randZero exDB
      emptyStore 0 ⟨"B", "a@x.com", "+971509999999", "Abc12345!", none⟩ =
      (.error (.duplicateError "Emirates ID already registered"), exDB, emptyStore) :=
  C8_duplicate_identity_rejected defaultOTPConfig 8 exHash "u9" randZero exDB
    emptyStore 0 ⟨"B", "a@x.com", "+971509999999", "Abc12345!", none⟩
    (by decide) (Or.inl ⟨exUser, by decide, by decide, rfl⟩)

/-- C9: the orchestrator's `verify_otp` consumes the OTP before the user
lookup — with a matching code but no matching non-deleted user it raises
`NotFoundError`, yet the OTP record and attempts counter are already gone,
so retrying the same code fails "expired or not found". -/
theorem C9_verify_otp_consumes_before_lookup (cfg : OTPConfig) (db : DB) (s : Store)
    (now : Nat) (id : String) {c : String} {cex : Option Nat}
    (hc : liveAt now (s (otpKey id)) = some ⟨c, cex⟩) (hcne : c ≠ "")
    (hatt : ¬(pyTruthy (Store.get s now (attemptsKey id)) = true ∧
      cfg.max_attempts ≤ pyInt (Store.get s now (attemptsKey id))))
    (huser : findByIdentifier db id = none) :
    (AuthService.verify_otp cfg db s now id c).1 =
      .error (.notFoundError "User not found") ∧
    (AuthService.verify_otp cfg db s now id c).2.1 = db ∧
    (AuthService.verify_otp cfg db s now id c).2.2 (otpKey id) = none ∧
    (AuthService.verify_otp cfg db s now id c).2.2 (attemptsKey id) = none ∧
    (∀ now2, OTP.verify cfg (AuthService.verify_otp cfg db s now id c).2.2 now2 id c =
      ((false, some "OTP expired or not found"),
        (AuthService.verify_otp cfg db s now id c).2.2)) := by
  have hver := verify_correct cfg s now id hc hcne hatt
  have hEq : AuthService.verify_otp cfg db s now id c =
      (.error (.notFoundError "User not found"), db,
        (s.del (otpKey id)).del (attemptsKey id)) := by
    simp only [AuthService.verify_otp, hver, huser]
    simp
  rw [hEq]
  dsimp only
  have hdelotp : ((s.del (otpKey id)).del (attemptsKey id)) (otpKey id) = none := by
    rw [Store.del_apply_ne _ _ (otpKey_ne_attemptsKey id), Store.del_apply_self]
  refine ⟨rfl, rfl, hdelotp, by rw [Store.del_apply_self], ?_⟩
  intro now2
  apply verify_no_otp
  rw [Store.get_of_liveAt_none (by rw [hdelotp]; rfl)]
  rfl

/-- Witness for C9 at concrete inputs: the store holds a live code for
`a@x.com` but the database is empty. -/
theorem C9_verify_otp_consumes_before_lookup_witness :
    (AuthService.verify_otp defaultOTPConfig ⟨[], []⟩ exStore 0 "a@x.com" "123456").1 =
      .error (.notFoundError "User not found") ∧
    (AuthService.verify_otp defaultOTPConfig ⟨[], []⟩ exStore 0 "a@x.com" "123456").2.2
      (otpKey "a@x.com") = none := by
  have h := @C9_verify_otp_consumes_before_lookup defaultOTPConfig ⟨[], []⟩ exStore 0
    "a@x.com" "123456" (some 300) (by decide) (by decide) (by decide) (by decide)
  exact ⟨h.1, h.2.2.1⟩

/-- C10: `refresh_access_token` never consults `is_verified`: any
non-deleted, active user presenting a valid unexpired refresh token whose
subject is their id gets a fresh access+refresh pair (the new access token's
subject being that id), and every failure of the operation is an
`AuthenticationError`. -/
theorem C10_refresh_ignores_is_verified (st : AppSettings) (db : DB) (now tIssue : Nat)
    (user : User)
    (hfind : db.users.find? (fun u => u.id == user.id && u.deleted_at == none) = some user)
    (hid : user.id ≠ "")
    (hact : user.is_active = true)
    (hexp : now ≤ tIssue + st.refresh_token_expire_days * 24 * 60 * 60) :
    AuthService.refresh_access_token st db now (create_refresh_token st user.id tIssue) =
      .ok { access_token := create_access_token st user.id user.email user.role now,
            refresh_token := create_refresh_token st user.id now,
            token_type := "bearer",
            expires_in := st.access_token_expire_minutes * 60 } ∧
    (create_access_token st user.id user.email user.role now).payload.sub =
      some user.id ∧
    (∀ tok e, AuthService.refresh_access_token st db now tok = .error e →
      ∃ m, e = .authenticationError m) := by
  refine ⟨?_, rfl, ?_⟩
  · have hdec : decode_refresh_token st (create_refresh_token st user.id tIssue) now =
        some (create_refresh_token st user.id tIssue).payload := by
      simp [decode_refresh_token, jwtDecode, create_refresh_token, hexp]
    have hsub : (create_refresh_token st user.id tIssue).payload.sub = some user.id := rfl
    have htru : ¬(pyTruthy (create_refresh_token st user.id tIssue).payload.sub = false) := by
      rw [hsub]
      simp [pyTruthy, hid]
    have hgetd : (create_refresh_token st user.id tIssue).payload.sub.getD "" = user.id := by
      rw [hsub]
      rfl
    have hact2 : ¬(user.is_active = false) := by
      rw [hact]
      simp
    simp only [AuthService.refresh_access_token, hdec, if_neg htru, hgetd, hfind,
      if_neg hact2]
  · intro tok e h
    cases hd : decode_refresh_token st tok now with
    | none =>
      simp only [AuthService.refresh_access_token, hd] at h
      exact ⟨"Invalid or expired refresh token", by
        cases h
        rfl⟩
    | some p =>
      simp only [AuthService.refresh_access_token, hd] at h
      by_cases hs : pyTruthy p.sub = false
      · rw [if_pos hs] at h
        exact ⟨"Invalid token payload", by
          cases h
          rfl⟩
      · rw [if_neg hs] at h
        cases hf : db.users.find? (fun u => u.id == p.sub.getD "" &&
            u.deleted_at == none) with
        | none =>
          rw [hf] at h
          exact ⟨"User not found or inactive", by
            cases h
            rfl⟩
        | some u2 =>
          rw [hf] at h
          dsimp only at h
          by_cases hia : u2.is_active = false
          · rw [if_pos hia] at h
            exact ⟨"User not found or inactive", by
              cases h
              rfl⟩
          · rw [if_neg hia] at h
            cases h

/-- Witness for C10 at concrete inputs: the user is active but has
`is_verified = false`, and refresh still succeeds. -/
theorem C10_refresh_ignores_is_verified_witness :
    exUserUnverified.is_verified = false ∧
    AuthService.refresh_access_token exSettings exDB 100
        (create_refresh_token exSettings exUserUnverified.id 0) =
      .ok { access_token := create_access_token exSettings exUserUnverified.id
              exUserUnverified.email exUserUnverified.role 100,
            refresh_token := create_refresh_token exSettings exUserUnverified.id 100,
            token_type := "bearer",
            expires_in := exSettings.access_token_expire_minutes * 60 } := by
  have h := C10_refresh_ignores_is_verified exSettings exDB 100 0 exUserUnverified
    (by decide) (by decide) (by decide) (by decide)
  exact ⟨by decide, h.1⟩
